import Mathlib

/-!
Verification development for the trajectory replay engine
(`src/environments/replay.py`, class `TaskStepExecutor`).

The Python code is shallowly embedded as follows:
- recorded payloads (`event_data_json`) are modelled by the inductive
  type `Value`, covering the Python values the code probes: `None`,
  booleans, ints, floats (as rationals), strings, lists and dicts;
- pure helpers (`_extract_coordinates`, `_build_selector`,
  `_css_escape`, `_split_event_type`, `_urls_differ`,
  `_is_spa_route_change`) become Lean functions of the same shape;
- fallible code paths (Python statements that can raise an uncaught
  exception) return `Except Unit`;
- browser-facing handlers are modelled as functions from the payload
  and an environment describing the browser outcomes (element counts,
  success or failure of each issued operation) to the outcome of the
  handler together with the ordered trace of browser calls it issued;
- the orchestrator loop of `TaskStepExecutor.run` is modelled as a
  state-threading fold over the trajectory, parametric in the per-step
  executor (the browser world).
-/

namespace Replay

/-- Python-like values occurring in recorded step payloads: JSON-ish data
    plus Python `None` and booleans. Ints and floats are kept apart so that
    the `isinstance` checks of the source can be modelled exactly; floats
    are modelled as rationals (the payload values the claims touch are
    exactly representable). -/
inductive Value where
  | vnone : Value
  | vbool : Bool → Value
  | vint : Int → Value
  | vfloat : ℚ → Value
  | vstr : String → Value
  | vlist : List Value → Value
  | vdict : List (String × Value) → Value

/-- Python truthiness (`bool(x)`) for the modelled values. -/
def truthy : Value → Bool
  | .vnone => false
  | .vbool b => b
  | .vint n => n != 0
  | .vfloat q => q != 0
  | .vstr s => s != ""
  | .vlist xs => !xs.isEmpty
  | .vdict es => !es.isEmpty

/-- First-match lookup in a dict entry list (Python dict keys are unique,
    so first match is the match). -/
def lookupEntry : List (String × Value) → String → Option Value
  | [], _ => none
  | (k, v) :: rest, key => if k = key then some v else lookupEntry rest key

/-- Model of `payload.get(key)` guarded by `isinstance(payload, dict)`:
    yields `vnone` when the receiver is not a dict or the key is absent
    (the source never distinguishes an absent key from a stored `None`
    except through `dict.get(key, default)`, modelled by `dgetD`). -/
def dget (v : Value) (key : String) : Value :=
  match v with
  | .vdict es => (lookupEntry es key).getD .vnone
  | _ => .vnone

/-- Model of `d.get(key, dflt)`: the default is used only when the key is
    absent, a stored `None` is returned as `vnone`. -/
def dgetD (v : Value) (key : String) (dflt : Value) : Value :=
  match v with
  | .vdict es => (lookupEntry es key).getD dflt
  | _ => dflt

/-- Model of `isinstance(x, dict)`. -/
def isDict : Value → Bool
  | .vdict _ => true
  | _ => false

/-- Model of `x is None`. -/
def isNone : Value → Bool
  | .vnone => true
  | _ => false

/-- Model of the combination `isinstance(x, (int, float))` plus `float(x)`:
    Python booleans are a subclass of `int`, so they pass the check and
    convert to 0 or 1. Returns `none` for non-numeric values. -/
def asNum? : Value → Option ℚ
  | .vbool b => some (if b then 1 else 0)
  | .vint n => some (n : ℚ)
  | .vfloat q => some q
  | _ => none

/-- Python `str(x)` restricted to the scalar values the replay code
    stringifies (element ids, class names and tags, which are strings in
    recorded payloads); container and float reprs are not needed by the
    verified paths and are not modelled beyond a placeholder. -/
def pyStr : Value → String
  | .vstr s => s
  | .vbool true => "True"
  | .vbool false => "False"
  | .vnone => "None"
  | .vint n => toString n
  | .vfloat q => toString q
  | .vlist _ => ""
  | .vdict _ => ""

/-- `TaskStepExecutor._is_valid_point`: a dict whose `x` and `y` entries
    are numeric. -/
def is_valid_point (point : Value) : Bool :=
  isDict point && (asNum? (dget point "x")).isSome && (asNum? (dget point "y")).isSome

/-- One iteration of the `for key in ("client", "page", "offset")` loop of
    `_extract_coordinates`: the point stored under `key`, when valid. -/
def pointOf (coords : Value) (key : String) : Option (ℚ × ℚ) :=
  let point := dget coords key
  if is_valid_point point then
    some ((asNum? (dget point "x")).getD 0, (asNum? (dget point "y")).getD 0)
  else none

/-- The first valid point among `client`, `page`, `offset`, in that order. -/
def firstCPO (coords : Value) : Option (ℚ × ℚ) :=
  match pointOf coords "client" with
  | some p => some p
  | none =>
    match pointOf coords "page" with
    | some p => some p
    | none => pointOf coords "offset"

/-- Model of `coords.get("viewport") or payload.get("viewport")` (Python
    `or` picks the second operand when the first is falsy). -/
def viewportOf (payload coords : Value) : Value :=
  if truthy (dget coords "viewport") then dget coords "viewport"
  else dget payload "viewport"

/-- The `coordinates.relative` branch of `_extract_coordinates`: a valid
    relative point scaled by a dict viewport with numeric width and
    height. -/
def relativeViewportPoint (payload coords : Value) : Option (ℚ × ℚ) :=
  let relative := dget coords "relative"
  let viewport := viewportOf payload coords
  if is_valid_point relative && isDict viewport then
    match asNum? (dget viewport "width"), asNum? (dget viewport "height") with
    | some w, some h =>
      some (((asNum? (dget relative "x")).getD 0) * w,
            ((asNum? (dget relative "y")).getD 0) * h)
    | _, _ => none
  else none

/-- The flat top-level `x`/`y` branch of `_extract_coordinates`. -/
def flatXYPoint (payload : Value) : Option (ℚ × ℚ) :=
  match asNum? (dget payload "x"), asNum? (dget payload "y") with
  | some x, some y => some (x, y)
  | _, _ => none

/-- The `elementRect` branch of `_extract_coordinates`. The source checks
    `isinstance` only for `left` and `top`; `width` and `height` default to
    0 when ABSENT, but a PRESENT non-numeric `width` or `height` makes the
    Python expression `left + width / 2` raise a `TypeError`, modelled as
    `Except.error`. -/
def rectCenterPoint (payload : Value) : Except Unit (Option (ℚ × ℚ)) :=
  let rect := dget payload "elementRect"
  if isDict rect then
    match asNum? (dget rect "left"), asNum? (dget rect "top") with
    | some l, some t =>
      match asNum? (dgetD rect "width" (.vint 0)), asNum? (dgetD rect "height" (.vint 0)) with
      | some w, some h => .ok (some (l + w / 2, t + h / 2))
      | _, _ => .error ()
    | _, _ => .ok none
  else .ok none

/-- `TaskStepExecutor._extract_coordinates`: priority order is
    `coordinates.client` / `.page` / `.offset`, then `coordinates.relative`
    scaled by a viewport, then flat `x`/`y`, then the center of
    `elementRect`; `Except.error` models the uncaught `TypeError` of the
    rect branch. -/
def extract_coordinates (payload : Value) : Except Unit (Option (ℚ × ℚ)) :=
  let coords := dget payload "coordinates"
  match (if isDict coords then
          match firstCPO coords with
          | some p => some p
          | none => relativeViewportPoint payload coords
         else none) with
  | some p => .ok (some p)
  | none =>
    match flatXYPoint payload with
    | some p => .ok (some p)
    | none => rectCenterPoint payload

/-- The single-quote character, kept out of string literals. -/
def squote : Char := Char.ofNat 39

/-- The module-level `CSS_ESCAPE_MAP` dict: per-character replacement used
    by `_css_escape` (`none` means the character is not in the map and
    passes through). Carriage return maps to the empty string and is
    thereby dropped; tab and space both map to a PLAIN space. -/
def CSS_ESCAPE_MAP (c : Char) : Option String :=
  if c = '\n' then some "\\A "
  else if c = Char.ofNat 13 then some ""
  else if c = Char.ofNat 12 then some "\\C "
  else if c = '\t' then some " "
  else if c = ' ' then some " "
  else if c = '\"' then some "\\\""
  else if c = squote then some ( "\\" ++ String.singleton squote)
  else if c = '#' then some "\\#"
  else if c = ':' then some "\\:"
  else none

/-- `TaskStepExecutor._css_escape`. -/
def css_escape (value : String) : String :=
  String.join (value.data.map (fun c => (CSS_ESCAPE_MAP c).getD (String.singleton c)))

/-- Python whitespace characters recognised by `str.split()` (ASCII). -/
def pyIsSpace (c : Char) : Bool :=
  c = ' ' || c = '\t' || c = '\n' || c = Char.ofNat 13 || c = Char.ofNat 11 || c = Char.ofNat 12

/-- Accumulator-based splitter behind `pySplit` (structural recursion so
    that concrete instances reduce definitionally). -/
def splitWsAux : List Char → List Char → List String
  | acc, [] => if acc.isEmpty then [] else [String.mk acc.reverse]
  | acc, c :: cs =>
    if pyIsSpace c then
      if acc.isEmpty then splitWsAux [] cs
      else String.mk acc.reverse :: splitWsAux [] cs
    else splitWsAux (c :: acc) cs

/-- Python `str.split()` with no argument: split on whitespace runs,
    dropping empty tokens. -/
def pySplit (s : String) : List String :=
  splitWsAux [] s.data

/-- ASCII lowercasing of one character (Python `str.lower()` restricted to
    ASCII, which covers every input the claims exercise). -/
def asciiLower (c : Char) : Char :=
  if 'A' ≤ c ∧ c ≤ 'Z' then Char.ofNat (c.toNat + 32) else c

/-- ASCII `str.lower()`. -/
def pyLower (s : String) : String :=
  String.mk (s.data.map asciiLower)

/-- The tag prefix expression of `_build_selector`:
    `(tag or "*").lower() if tag else "*"`. A truthy non-string tag makes
    `.lower()` raise `AttributeError`, modelled as `Except.error`. -/
def tagPfx (tag : Value) : Except Unit String :=
  if truthy tag then
    match tag with
    | .vstr s => .ok (pyLower s)
    | _ => .error ()
  else .ok "*"

/-- `TaskStepExecutor._build_selector`: `#` plus the CSS-escaped id when a
    truthy `id` is present; else lowercased tag (or `*`) followed by the
    `.`-joined CSS-escaped whitespace-separated class tokens of a truthy
    `className`; else no selector. -/
def build_selector (payload : Value) : Except Unit (Option String) :=
  let element_id := dget payload "id"
  if truthy element_id then .ok (some ( "#" ++ css_escape (pyStr element_id)))
  else
    let class_name := dget payload "className"
    let tag := dget payload "tag"
    if truthy class_name then
      let classes := (pySplit (pyStr class_name)).filter (fun part => part != "")
        |>.map css_escape
      if !classes.isEmpty then
        match tagPfx tag with
        | .ok p => .ok (some (p ++ String.join (classes.map (fun cls => "." ++ cls))))
        | .error e => .error e
      else .ok none
    else .ok none

/-! URL parsing: model of CPython `urllib.parse.urlparse` restricted to
    what `_is_spa_route_change` consumes (scheme, netloc, path, query).
    Bracketed (IPv6) hosts are conservatively modelled as parse failures:
    CPython raises for unbalanced or invalid brackets and additionally
    validates bracketed hosts, none of which the claims exercise. The
    non-ASCII netloc check of `_checknetloc` is likewise not modelled. -/

/-- Result of `urlparse`, in field order (scheme, netloc, path, params,
    query, fragment). -/
structure ParseResult where
  scheme : String
  netloc : String
  path : String
  params : String
  query : String
  fragment : String
  deriving DecidableEq, Repr

/-- Characters allowed after the first character of a URL scheme. -/
def schemeChar (c : Char) : Bool :=
  c.isAlpha || c.isDigit || c = '+' || c = '-' || c = '.'

/-- WHATWG C0-control-or-space characters stripped from the front of a URL. -/
def isC0OrSpace (c : Char) : Bool :=
  c.toNat ≤ 32

/-- Tab, carriage return and newline are removed from URLs wholesale. -/
def isUnsafeUrlByte (c : Char) : Bool :=
  c = '\t' || c = Char.ofNat 13 || c = '\n'

/-- The preprocessing `urlsplit` applies before parsing. -/
def urlPreprocess (s : String) : List Char :=
  (s.data.dropWhile isC0OrSpace).filter (fun c => !isUnsafeUrlByte c)

/-- Scheme extraction of `urlsplit`: the text before the first `:` when it
    is nonempty, starts with an ASCII letter and consists of scheme
    characters; the scheme is lowercased. -/
def splitScheme (u : List Char) : String × List Char :=
  let before := u.takeWhile (fun c => c ≠ ':')
  if decide (before.length < u.length) && decide (before.length > 0) &&
      ((u.head?.map Char.isAlpha).getD false) && before.all schemeChar then
    (pyLower (String.mk before), u.drop (before.length + 1))
  else
    ( "", u)

/-- Netloc delimiter characters. -/
def netlocDelim (c : Char) : Bool :=
  c = '/' || c = '?' || c = '#'

/-- Split `before, Option after` at the first occurrence of `c`. -/
def splitFirst (c : Char) : List Char → List Char × Option (List Char)
  | [] => ([], none)
  | x :: xs =>
    if x = c then ([], some xs)
    else
      let r := splitFirst c xs
      (x :: r.1, r.2)

/-- Params splitting of `urlparse` (`_splitparams`): the first `;` of the
    last `/`-separated segment starts the params. -/
def splitParams (p : List Char) : List Char × List Char :=
  if p.contains ';' then
    if p.contains '/' then
      let tailSeg := (p.reverse.takeWhile (fun c => c ≠ '/')).reverse
      let headSeg := p.take (p.length - tailSeg.length)
      match splitFirst ';' tailSeg with
      | (before, some after) => (headSeg ++ before, after)
      | (_, none) => (p, [])
    else
      match splitFirst ';' p with
      | (before, some after) => (before, after)
      | (_, none) => (p, [])
  else (p, [])

/-- Model of `urllib.parse.urlparse` (see the module comment above for the
    modelled subset): scheme, then `//netloc` up to a delimiter, then the
    fragment after the first `#`, then the query after the first `?`, then
    params split off the path. -/
def urlparse (url : String) : Except Unit ParseResult :=
  let u := urlPreprocess url
  let sr := splitScheme u
  let scheme := sr.1
  let nr : String × List Char :=
    match sr.2 with
    | '/' :: '/' :: rest =>
      (String.mk (rest.takeWhile (fun c => !netlocDelim c)),
       rest.dropWhile (fun c => !netlocDelim c))
    | other => ( "", other)
  if nr.1.data.contains '[' ∨ nr.1.data.contains ']' then .error ()
  else
    let fr := splitFirst '#' nr.2
    let fragment := (fr.2.map String.mk).getD ""
    let qr := splitFirst '?' fr.1
    let query := (qr.2.map String.mk).getD ""
    let pp := splitParams qr.1
    .ok ⟨scheme, nr.1, String.mk pp.1, String.mk pp.2, query, fragment⟩

/-- The static-document extensions of `_is_spa_route_change`. -/
def static_extensions : List String :=
  [ ".html", ".htm", ".php", ".asp", ".jsp"]

/-- List-based suffix test (structural, so concrete instances reduce). -/
def listIsSuffix (suffix s : List Char) : Bool :=
  s.reverse.take suffix.length = suffix.reverse

/-- `any(path.endswith(ext) for ext in static_extensions)`. -/
def hasStaticExt (path : String) : Bool :=
  static_extensions.any (fun ext => listIsSuffix ext.data path.data)

/-- `TaskStepExecutor._urls_differ` (`current` may be falsy: empty models
    Python `None` or `""`). -/
def rstripSlash (s : String) : String :=
  String.mk ((s.data.reverse.dropWhile (fun c => c = '/')).reverse)

/-- `TaskStepExecutor._urls_differ`. -/
def urls_differ (current target : String) : Bool :=
  if current = "" then true
  else rstripSlash current != rstripSlash target

/-- `TaskStepExecutor._is_spa_route_change`: blank or empty current page
    means real navigation; origin mismatch means real navigation; same
    origin with identical path and query means SPA; otherwise the lowercased
    target path decides by static extension. A parse error (caught by the
    `except` of the source) means real navigation. -/
def is_spa_route_change (current_url target_url : String) : Bool :=
  if current_url = "" ∨ current_url = "about:blank" then false
  else
    match urlparse current_url, urlparse target_url with
    | .ok current, .ok target =>
      if current.scheme ≠ target.scheme ∨ current.netloc ≠ target.netloc then false
      else if current.scheme = target.scheme ∧ current.netloc = target.netloc ∧
              current.path = target.path ∧ current.query = target.query then true
      else if hasStaticExt (pyLower target.path) then false
      else true
    | _, _ => false

/-! Navigation handler and session state. -/

/-- The replay session state the handlers read and write: the page URL as
    the browser reports it and the `_initial_navigation_done` flag. -/
structure Session where
  pageUrl : String
  initialNavigationDone : Bool
  deriving DecidableEq, Repr

/-- Browser calls the navigation and load handlers can issue.
    `spaNavigate` stands for the History-API mutation of
    `_perform_spa_navigation` (its internal fallback to `goto` on script
    failure is below this model's granularity); `goto` is the best-effort
    `_safe_goto`; `gotoNonString` records the swallowed `goto` attempted on
    a truthy non-string url; `waitForLoad` is `_safe_wait_for_load`. -/
inductive BrowserCall where
  | spaNavigate : String → BrowserCall
  | goto : String → BrowserCall
  | gotoNonString : BrowserCall
  | waitForLoad : String → Nat → BrowserCall
  deriving DecidableEq, Repr

/-- Python `url == "about:blank"` for an arbitrary payload value. -/
def isAboutBlank : Value → Bool
  | .vstr s => s = "about:blank"
  | _ => false

/-- `TaskStepExecutor._handle_state_step`. The only uncaught exception is
    the `AttributeError` from `_urls_differ` on a truthy non-string url,
    reached when `initial_navigation_done` is already set (otherwise the
    `or` short-circuits and the navigation attempt is swallowed by
    `_safe_goto`). -/
def handle_state_step (subject action : String) (payload : Value) (s : Session) :
    Except Unit (Session × List BrowserCall) :=
  if subject = "browser" ∧ action = "navigated" then
    let urlV := dget payload "url"
    if truthy urlV = false ∨ isAboutBlank urlV then .ok (s, [])
    else
      match urlV with
      | .vstr url =>
        if s.initialNavigationDone = false ∨ urls_differ s.pageUrl url then
          if is_spa_route_change s.pageUrl url then
            .ok ({ s with initialNavigationDone := true }, [.spaNavigate url])
          else
            .ok ({ s with initialNavigationDone := true }, [.goto url])
        else .ok (s, [])
      | _ =>
        if s.initialNavigationDone = false then
          .ok ({ s with initialNavigationDone := true }, [.gotoNonString])
        else .error ()
  else if subject = "page" then
    if action = "domcontentloaded" ∨ action = "domcontentload" then
      .ok (s, [.waitForLoad "domcontentloaded" 15000])
    else if action = "loaded" ∨ action = "load" then
      .ok (s, [.waitForLoad "load" 15000])
    else .ok (s, [])
  else .ok (s, [])

/-! Action handlers. Each handler is a function of the payload and an
    environment recording how the browser answers each operation the
    handler may issue; the result is the handler outcome (ok, or error for
    an exception that would abort the replay) together with the ordered
    trace of operations actually issued. -/

/-- Pointer-level browser calls of the click and hover handlers. -/
inductive PointerCall where
  | mouseMove : ℚ → ℚ → PointerCall
  | mouseClick : ℚ → ℚ → PointerCall
  deriving DecidableEq, Repr

/-- `TaskStepExecutor._perform_pointer_move` (the hover handler): no
    resolvable coordinates is a silent no-op; coordinates yield a single
    mouse move; a coordinate-extraction exception (see `rectCenterPoint`)
    propagates. -/
def perform_pointer_move (payload : Value) : Except Unit (List PointerCall) :=
  match extract_coordinates payload with
  | .error e => .error e
  | .ok none => .ok []
  | .ok (some (x, y)) => .ok [.mouseMove x y]

/-- Exception kind distinguished by the input handler: Playwright
    `TimeoutError` versus any other exception. -/
inductive FillErr where
  | timeout
  | other
  deriving DecidableEq, Repr

/-- Browser answers consumed by `_perform_input`: the outcome of the
    selector-based `fill` (when issued), the count of the `:focus` locator
    and the outcome of the focused-element `fill` (when issued). -/
structure InputEnv where
  selFill : Except FillErr Unit
  focusCount : Nat
  focusFill : Except FillErr Unit
  deriving Repr

/-- Fill operations issued by the input handler, with their timeouts in
    milliseconds. -/
inductive InputCall where
  | fillSelector : Nat → InputCall
  | fillFocused : Nat → InputCall
  deriving DecidableEq, Repr

/-- `TaskStepExecutor._perform_input`: a missing `value` is a silent
    no-op; with a selector, `fill` with a 5000 ms timeout, where only a
    `PlaywrightTimeoutError` falls through to the focused-element fallback
    and any other exception propagates; the focused-element `fill` (2000 ms)
    is attempted when the `:focus` locator count is positive and any of its
    exceptions is swallowed; if no strategy returned, the handler raises. -/
def perform_input (payload : Value) (env : InputEnv) :
    Except Unit Unit × List InputCall :=
  let valueV := dget payload "value"
  if isNone valueV then (.ok (), [])
  else
    match build_selector payload with
    | .error e => (.error e, [])
    | .ok selOpt =>
      match selOpt with
      | some _ =>
        match env.selFill with
        | .ok _ => (.ok (), [.fillSelector 5000])
        | .error .other => (.error (), [.fillSelector 5000])
        | .error .timeout =>
          if env.focusCount > 0 then
            match env.focusFill with
            | .ok _ => (.ok (), [.fillSelector 5000, .fillFocused 2000])
            | .error _ => (.error (), [.fillSelector 5000, .fillFocused 2000])
          else (.error (), [.fillSelector 5000])
      | none =>
        if env.focusCount > 0 then
          match env.focusFill with
          | .ok _ => (.ok (), [.fillFocused 2000])
          | .error _ => (.error (), [.fillFocused 2000])
        else (.error (), [])

/-- Browser answers consumed by `_perform_submit`: the locator counts of
    the four strategies and the outcome of each operation (when issued). -/
structure SubmitEnv where
  selCount : Nat
  selPress : Except Unit Unit
  btnCount : Nat
  btnClick : Except Unit Unit
  focusCount : Nat
  focusPress : Except Unit Unit
  formCount : Nat
  formPress : Except Unit Unit
  deriving Repr

/-- Operations issued by the submit handler, with their timeouts in
    milliseconds. -/
inductive SubmitCall where
  | pressSelector : Nat → SubmitCall
  | clickSubmitButton : Nat → SubmitCall
  | pressFocused : Nat → SubmitCall
  | pressFirstForm : Nat → SubmitCall
  deriving DecidableEq, Repr

/-- The tail of `_perform_submit` after the selector strategy: submit
    button, focused element, first form; each strategy runs only when its
    locator count is positive, and an exception of the one operation that
    does run is re-raised by the surrounding `except` block. -/
def submitFallbacks (env : SubmitEnv) : Except Unit Unit × List SubmitCall :=
  if env.btnCount > 0 then
    match env.btnClick with
    | .ok _ => (.ok (), [.clickSubmitButton 2000])
    | .error e => (.error e, [.clickSubmitButton 2000])
  else if env.focusCount > 0 then
    match env.focusPress with
    | .ok _ => (.ok (), [.pressFocused 2000])
    | .error e => (.error e, [.pressFocused 2000])
  else if env.formCount > 0 then
    match env.formPress with
    | .ok _ => (.ok (), [.pressFirstForm 2000])
    | .error e => (.error e, [.pressFirstForm 2000])
  else (.error (), [])

/-- `TaskStepExecutor._perform_submit`: with a selector whose locator
    count is positive, press Enter on it (2000 ms) and re-raise its
    exception; otherwise fall through `submitFallbacks`. A selector
    construction error propagates (it is raised before the `try`). -/
def perform_submit (payload : Value) (env : SubmitEnv) :
    Except Unit Unit × List SubmitCall :=
  match build_selector payload with
  | .error e => (.error e, [])
  | .ok selOpt =>
    match selOpt with
    | some _ =>
      if env.selCount > 0 then
        match env.selPress with
        | .ok _ => (.ok (), [.pressSelector 2000])
        | .error e => (.error e, [.pressSelector 2000])
      else submitFallbacks env
    | none => submitFallbacks env

/-! Orchestrator: `TaskStepExecutor.run`. -/

/-- One recorded step (`db.models.StepModel` as the replay engine reads
    it). -/
structure StepModel where
  id : Nat
  event_type : String
  event_data_json : Value

/-- `TaskStepExecutor._split_event_type`:
    `(event_type or "").split(":", 2)` padded to three parts. -/
def split_event_type (event_type : String) : String × String × String :=
  match splitFirst ':' event_type.data with
  | (_, none) => (event_type, "", "")
  | (a, some rest) =>
    match splitFirst ':' rest with
    | (_, none) => (String.mk a, String.mk rest, "")
    | (b, some rest2) => (String.mk a, String.mk b, String.mk rest2)

/-- Terminal states of the replay state machine (§4.5 of the design):
    an uncaught per-step exception ends the session in `StoppedOnError`,
    exhausting the trajectory ends it in `Completed`. -/
inductive SessionResult where
  | Completed
  | StoppedOnError
  deriving DecidableEq, Repr

/-- The flag preset of `TaskStepExecutor.run`: `initial_navigation_done`
    starts true when the page already shows a non-blank URL. -/
def initialNavigationPreset (pageUrl : String) : Bool :=
  pageUrl != "" && pageUrl != "about:blank"

/-- The `for step in self.trajectory` loop of `TaskStepExecutor.run`,
    parametric in the per-step executor `exec` (the embedding of
    `_run_step` applied to a browser world of type `σ`): each step is
    tried in order; the first exception is caught, logged and ends the
    replay (`StoppedOnError`); otherwise the loop completes. The returned
    list is the ordered list of steps that were processed (attempted).
    The inter-step pacing sleep has no observable effect in this model. -/
def runSteps {σ ε : Type} (exec : σ → StepModel → Except ε σ) :
    σ → List StepModel → SessionResult × List StepModel
  | _, [] => (.Completed, [])
  | st, s :: rest =>
    match exec st s with
    | .error _ => (.StoppedOnError, [s])
    | .ok st2 =>
      let r := runSteps exec st2 rest
      (r.1, s :: r.2)

/-- Sequential execution of a list of steps, used to state which prefix of
    a trajectory succeeds. -/
def execList {σ ε : Type} (exec : σ → StepModel → Except ε σ) :
    σ → List StepModel → Except ε σ
  | st, [] => .ok st
  | st, s :: rest =>
    match exec st s with
    | .error e => .error e
    | .ok st2 => execList exec st2 rest

/-- Boolean success test for `Except` results. -/
def isOkE {ε α : Type} : Except ε α → Bool
  | .ok _ => true
  | .error _ => false

/-! Theorems. -/

theorem runSteps_completed {σ ε : Type} (exec : σ → StepModel → Except ε σ) :
    ∀ (traj : List StepModel) (st : σ), isOkE (execList exec st traj) = true →
      runSteps exec st traj = (SessionResult.Completed, traj) := by
  intro traj
  induction traj with
  | nil => intro st _; rfl
  | cons a rest ih =>
    intro st h
    simp only [execList] at h
    cases hx : exec st a with
    | error e => rw [hx] at h; simp [isOkE] at h
    | ok st2 =>
      rw [hx] at h
      simp only [runSteps, hx, ih st2 h]

theorem runSteps_stops {σ ε : Type} (exec : σ → StepModel → Except ε σ) :
    ∀ (pre : List StepModel) (st st1 : σ) (s : StepModel) (post : List StepModel),
      execList exec st pre = Except.ok st1 →
      isOkE (exec st1 s) = false →
      runSteps exec st (pre ++ s :: post) = (SessionResult.StoppedOnError, pre ++ [s]) := by
  intro pre
  induction pre with
  | nil =>
    intro st st1 s post hex herr
    simp only [execList] at hex
    cases hex
    simp only [List.nil_append, runSteps]
    cases hx : exec st s with
    | error e => rfl
    | ok st2 => rw [hx] at herr; simp [isOkE] at herr
  | cons a pre ih =>
    intro st st1 s post hex herr
    cases hx : exec st a with
    | error e =>
      simp only [execList, hx] at hex
      exact Except.noConfusion hex
    | ok st2 =>
      simp only [execList, hx] at hex
      have h2 := ih st2 st1 s post hex herr
      simp only [List.cons_append, runSteps, hx, List.append_eq, h2]

/-- Claim C1 (confirmed): the orchestrator processes the trajectory
    strictly in order; the first step whose processing raises stops the
    replay at once (no later step is processed, the session ends in
    `StoppedOnError`); when no step raises, every step is processed and the
    session ends in `Completed`. -/
theorem C1_fail_fast_orchestration {σ ε : Type} (exec : σ → StepModel → Except ε σ)
    (st : σ) (traj : List StepModel) :
    (isOkE (execList exec st traj) = true →
      runSteps exec st traj = (SessionResult.Completed, traj)) ∧
    (∀ (pre : List StepModel) (s : StepModel) (post : List StepModel) (st1 : σ),
      traj = pre ++ s :: post →
      execList exec st pre = Except.ok st1 →
      isOkE (exec st1 s) = false →
      runSteps exec st traj = (SessionResult.StoppedOnError, pre ++ [s])) := by
  refine ⟨runSteps_completed exec traj st, ?_⟩
  intro pre s post st1 htraj hex herr
  rw [htraj]
  exact runSteps_stops exec pre st st1 s post hex herr

/-- Demonstration trajectory steps for the orchestrator witness. -/
def stepA : StepModel := ⟨1, "action:user:click", Value.vnone⟩

/-- Second demonstration step. -/
def stepB : StepModel := ⟨2, "action:user:input", Value.vnone⟩

/-- Third demonstration step. -/
def stepC : StepModel := ⟨3, "state:page:load", Value.vnone⟩

/-- Demonstration per-step executor that fails exactly on step id 2. -/
def execDemo (st : Nat) (s : StepModel) : Except Unit Nat :=
  if s.id = 2 then .error () else .ok (st + 1)

/-- Witness for C1 on a concrete trajectory: the failing run stops right
    after the failing step, the clean run completes with every step. -/
theorem C1_fail_fast_orchestration_witness :
    runSteps execDemo 0 [stepA, stepB, stepC] =
      (SessionResult.StoppedOnError, [stepA, stepB]) ∧
    runSteps execDemo 0 [stepA, stepC] = (SessionResult.Completed, [stepA, stepC]) := by
  constructor
  · exact (C1_fail_fast_orchestration execDemo 0 [stepA, stepB, stepC]).2
      [stepA] stepB [stepC] 1 rfl rfl rfl
  · exact (C1_fail_fast_orchestration execDemo 0 [stepA, stepC]).1 rfl

/-- Claim C10 (confirmed): the `elementRect` branch needs only numeric
    `left` and `top`; missing `width` and `height` default to 0, so a rect
    holding only `left` and `top` resolves to that point rather than being
    rejected. -/
theorem C10_elementRect_defaults (l t : ℚ) :
    extract_coordinates (Value.vdict
      [( "elementRect", Value.vdict [( "left", Value.vfloat l), ( "top", Value.vfloat t)])]) =
    Except.ok (some (l, t)) := by
  simp [extract_coordinates, dget, lookupEntry, isDict, firstCPO, pointOf, is_valid_point,
        asNum?, relativeViewportPoint, viewportOf, truthy, flatXYPoint, rectCenterPoint, dgetD]

/-- Counterexample to claim C9 as stated: a `state:browser:navigated` step
    whose payload has no `url` is handled to completion (no exception,
    no browser call), yet `initial_navigation_done` is still false
    afterwards — the flag is set only inside the navigate branch, not
    "regardless of branch taken". -/
theorem C9_navigation_flag_counterexample :
    handle_state_step "browser" "navigated" (Value.vdict []) ⟨ "about:blank", false⟩ =
      Except.ok (⟨ "about:blank", false⟩, []) := rfl

/-- Claim C9 (corrected): after the navigation handler processes a
    `state:browser:navigated` step whose payload carries a string url that
    is nonempty and not the blank-page sentinel, the flag
    `initial_navigation_done` is true, whichever branch ran (skip because
    navigation is unnecessary, SPA route change, or real navigation). The
    missing-url and blank-sentinel skips leave the flag unchanged. -/
theorem C9_navigation_flag_amended (payload : Value) (s : Session) (u : String)
    (hu : dget payload "url" = Value.vstr u) (h1 : u ≠ "") (h2 : u ≠ "about:blank") :
    ∃ calls, handle_state_step "browser" "navigated" payload s =
      Except.ok ({ pageUrl := s.pageUrl, initialNavigationDone := true }, calls) := by
  cases s with
  | mk cur flag =>
    simp only [handle_state_step, hu]
    rw [if_pos (by simp)]
    have ht : truthy (Value.vstr u) = true := by simp [truthy, h1]
    have hb : isAboutBlank (Value.vstr u) = false := by simp [isAboutBlank, h2]
    rw [ht, hb]
    simp only [Bool.true_eq_false, Bool.false_eq_true, false_or, or_false, if_false]
    by_cases hf : flag = false ∨ urls_differ cur u = true
    · rw [if_pos hf]
      by_cases hs : is_spa_route_change cur u = true
      · rw [if_pos hs]; exact ⟨[.spaNavigate u], rfl⟩
      · rw [if_neg hs]; exact ⟨[.goto u], rfl⟩
    · rw [if_neg hf]
      push_neg at hf
      have hflag : flag = true := by
        cases flag
        · exact absurd rfl hf.1
        · rfl
      subst hflag
      exact ⟨[], rfl⟩

/-- Witness for C9 (amended) at a concrete navigated step. -/
theorem C9_navigation_flag_amended_witness :
    ∃ calls, handle_state_step "browser" "navigated"
      (Value.vdict [( "url", Value.vstr "https://a.com/x")]) ⟨ "about:blank", false⟩ =
      Except.ok (⟨ "about:blank", true⟩, calls) :=
  C9_navigation_flag_amended (Value.vdict [( "url", Value.vstr "https://a.com/x")])
    ⟨ "about:blank", false⟩ "https://a.com/x" rfl (by decide) (by decide)

/-- Counterexample to claim C3 as stated: with `initial_navigation_done`
    true and an EMPTY current page URL, the target `/` is equal to the
    current URL after stripping trailing slashes from both, yet the handler
    issues a real navigation (`_urls_differ` reports a difference for any
    falsy current URL before comparing stripped forms). -/
theorem C3_redundant_navigation_counterexample :
    rstripSlash "" = rstripSlash "/" ∧
    handle_state_step "browser" "navigated" (Value.vdict [( "url", Value.vstr "/")])
        ⟨ "", true⟩ =
      Except.ok (⟨ "", true⟩, [BrowserCall.goto "/"]) := ⟨rfl, rfl⟩

/-- Claim C3 (corrected): for a `state:browser:navigated` step, when a real
    navigation has already happened (`initial_navigation_done` true), the
    page's current URL is nonempty, and the target URL equals the current
    URL after stripping the trailing slash run from each, the handler
    issues no browser call and leaves the session state unchanged. -/
theorem C3_redundant_navigation_amended (payload : Value) (cur target : String)
    (hu : dget payload "url" = Value.vstr target)
    (hcur : cur ≠ "")
    (heq : rstripSlash cur = rstripSlash target) :
    handle_state_step "browser" "navigated" payload ⟨cur, true⟩ =
      Except.ok (⟨cur, true⟩, []) := by
  simp only [handle_state_step, hu]
  rw [if_pos (by simp)]
  by_cases h0 : truthy (Value.vstr target) = false ∨ isAboutBlank (Value.vstr target) = true
  · rw [if_pos h0]
  · rw [if_neg h0]
    have hdiff : urls_differ cur target = false := by
      unfold urls_differ
      rw [if_neg hcur, heq]
      simp
    have : ¬((true : Bool) = false ∨ urls_differ cur target = true) := by
      simp [hdiff]
    rw [if_neg this]

/-- Witness for C3 (amended) at a concrete redundant navigation. -/
theorem C3_redundant_navigation_amended_witness :
    handle_state_step "browser" "navigated"
      (Value.vdict [( "url", Value.vstr "https://a.com/x/")]) ⟨ "https://a.com/x", true⟩ =
      Except.ok (⟨ "https://a.com/x", true⟩, []) :=
  C3_redundant_navigation_amended (Value.vdict [( "url", Value.vstr "https://a.com/x/")])
    "https://a.com/x" "https://a.com/x/" rfl (by decide) (by decide)

/-- Counterexample to claim C5 as stated: the escape map sends a space to a
    PLAIN space, so `id="foo bar"` yields the selector `#foo bar`, not
    `#foo\ bar` with an escaped space. -/
theorem C5_selector_escaping_counterexample :
    build_selector (Value.vdict [( "id", Value.vstr "foo bar")]) =
      Except.ok (some "#foo bar") ∧
    "#foo bar" ≠ "#foo\\ bar" := ⟨rfl, by decide⟩

/-- Claim C5 (corrected): a payload with a non-empty id yields `#` followed
    by the CSS-escaped id, where the escape map sends newline to an escaped
    form, drops carriage return, escapes form feed, quotes, `#` and `:`,
    and sends tab and space to a PLAIN (unescaped) space — so
    `id="foo bar"` yields `#foo bar`; all other characters pass through.
    With no id, `className="a b"` and `tag="DIV"` yield `div.a.b`. -/
theorem C5_selector_escaping_amended :
    (∀ s : String, s ≠ "" →
      build_selector (Value.vdict [( "id", Value.vstr s)]) =
        Except.ok (some ( "#" ++ css_escape s))) ∧
    css_escape "foo bar" = "foo bar" ∧
    CSS_ESCAPE_MAP '\n' = some "\\A " ∧
    CSS_ESCAPE_MAP (Char.ofNat 13) = some "" ∧
    CSS_ESCAPE_MAP (Char.ofNat 12) = some "\\C " ∧
    CSS_ESCAPE_MAP '\t' = some " " ∧
    CSS_ESCAPE_MAP ' ' = some " " ∧
    CSS_ESCAPE_MAP '\"' = some "\\\"" ∧
    CSS_ESCAPE_MAP squote = some ( "\\" ++ String.singleton squote) ∧
    CSS_ESCAPE_MAP '#' = some "\\#" ∧
    CSS_ESCAPE_MAP ':' = some "\\:" ∧
    (∀ c : Char, CSS_ESCAPE_MAP c = none →
      css_escape (String.singleton c) = String.singleton c) ∧
    build_selector (Value.vdict [( "className", Value.vstr "a b"), ( "tag", Value.vstr "DIV")]) =
      Except.ok (some "div.a.b") := by
  refine ⟨?_, rfl, rfl, rfl, rfl, rfl, rfl, rfl, rfl, rfl, rfl, ?_, rfl⟩
  · intro s hs
    simp [build_selector, dget, lookupEntry, truthy, pyStr, hs]
  · intro c hc
    simp [css_escape, String.singleton, hc, String.join]

/-- Witness for C5 (amended): a concrete non-empty id and a concrete
    pass-through character. -/
theorem C5_selector_escaping_amended_witness :
    build_selector (Value.vdict [( "id", Value.vstr "x")]) =
      Except.ok (some ( "#" ++ css_escape "x")) ∧
    css_escape (String.singleton 'a') = String.singleton 'a' :=
  ⟨C5_selector_escaping_amended.1 "x" (by decide),
   C5_selector_escaping_amended.2.2.2.2.2.2.2.2.2.2.2.1 'a' rfl⟩

/-- Counterexample to claim C8 as stated: a hover payload whose
    `elementRect` has numeric `left` and `top` but a non-numeric `width`
    makes coordinate extraction raise a `TypeError` (`left + width / 2`),
    which propagates out of the hover handler and aborts the replay. -/
theorem C8_hover_counterexample :
    perform_pointer_move (Value.vdict [( "elementRect",
      Value.vdict [( "left", Value.vint 1), ( "top", Value.vint 2),
                   ( "width", Value.vstr "x")])]) = Except.error () := rfl

/-- Claim C8 (corrected): whenever coordinate extraction itself does not
    raise, the hover handler cannot abort the replay: it issues at most one
    pointer move and never a click — a no-op without coordinates, exactly
    one move with them. Only a coordinate-extraction exception (see the
    counterexample) propagates. -/
theorem C8_hover_never_fatal_amended (payload : Value) :
    (isOkE (extract_coordinates payload) = true →
      ∃ calls, perform_pointer_move payload = Except.ok calls ∧
        calls.length ≤ 1 ∧ ∀ x y : ℚ, PointerCall.mouseClick x y ∉ calls) ∧
    (extract_coordinates payload = Except.ok none →
      perform_pointer_move payload = Except.ok []) ∧
    (∀ x y : ℚ, extract_coordinates payload = Except.ok (some (x, y)) →
      perform_pointer_move payload = Except.ok [PointerCall.mouseMove x y]) := by
  refine ⟨?_, ?_, ?_⟩
  · intro h
    cases hx : extract_coordinates payload with
    | error e => rw [hx] at h; simp [isOkE] at h
    | ok opt =>
      cases opt with
      | none => exact ⟨[], by simp [perform_pointer_move, hx], by simp, by simp⟩
      | some p =>
        refine ⟨[PointerCall.mouseMove p.1 p.2], ?_, by simp, by simp⟩
        simp [perform_pointer_move, hx]
  · intro h
    simp [perform_pointer_move, h]
  · intro x y h
    simp [perform_pointer_move, h]

/-- Witness for C8 (amended) on concrete hover payloads: one without
    coordinates, one with flat coordinates. -/
theorem C8_hover_never_fatal_amended_witness :
    perform_pointer_move (Value.vdict []) = Except.ok [] ∧
    perform_pointer_move (Value.vdict [( "x", Value.vint 5), ( "y", Value.vint 6)]) =
      Except.ok [PointerCall.mouseMove 5 6] :=
  ⟨(C8_hover_never_fatal_amended (Value.vdict [])).2.1 rfl,
   (C8_hover_never_fatal_amended
      (Value.vdict [( "x", Value.vint 5), ( "y", Value.vint 6)])).2.2 5 6 rfl⟩

/-- Submit environment of the C6 counterexample: the selector-resolved form
    element exists but pressing Enter on it times out, while the submit
    button (and every later strategy) exists and would succeed. -/
def submitCxEnv : SubmitEnv :=
  ⟨1, Except.error (), 1, Except.ok (), 1, Except.ok (), 1, Except.ok ()⟩

/-- Counterexample to claim C6 as stated: when strategy 1 runs and its
    press raises, the handler re-raises at once — the step is fatal with
    only strategy 1 attempted, although strategy 2 (clicking the existing
    submit button) would have succeeded. "Fatal only if all four strategies
    fail" does not hold. -/
theorem C6_submit_counterexample :
    perform_submit (Value.vdict [( "id", Value.vstr "f")]) submitCxEnv =
      (Except.error (), [SubmitCall.pressSelector 2000]) ∧
    submitCxEnv.btnCount = 1 ∧ submitCxEnv.btnClick = Except.ok () := ⟨rfl, rfl, rfl⟩

/-- Claim C6 (corrected): the submit strategies are gated on element
    resolution, not on operation failure. The handler executes exactly the
    FIRST strategy whose target resolves (selector locator count positive
    when a selector exists, else submit button, else focused element, else
    first form), each with a 2000 ms operation; the step outcome is that
    single operation's outcome (its exception is fatal), and the step is
    also fatal when no strategy's target resolves or when selector
    construction itself raises. -/
theorem C6_submit_gating_amended (payload : Value) (env : SubmitEnv) :
    (∀ s : String, build_selector payload = Except.ok (some s) → env.selCount > 0 →
      perform_submit payload env = (env.selPress, [SubmitCall.pressSelector 2000])) ∧
    ((build_selector payload = Except.ok none ∨
      ((∃ s : String, build_selector payload = Except.ok (some s)) ∧ env.selCount = 0)) →
      ((env.btnCount > 0 →
        perform_submit payload env = (env.btnClick, [SubmitCall.clickSubmitButton 2000])) ∧
       (env.btnCount = 0 → env.focusCount > 0 →
        perform_submit payload env = (env.focusPress, [SubmitCall.pressFocused 2000])) ∧
       (env.btnCount = 0 → env.focusCount = 0 → env.formCount > 0 →
        perform_submit payload env = (env.formPress, [SubmitCall.pressFirstForm 2000])) ∧
       (env.btnCount = 0 → env.focusCount = 0 → env.formCount = 0 →
        perform_submit payload env = (Except.error (), [])))) ∧
    (build_selector payload = Except.error () →
      perform_submit payload env = (Except.error (), [])) := by
  have hfb : ∀ hsel : build_selector payload = Except.ok none ∨
      ((∃ s : String, build_selector payload = Except.ok (some s)) ∧ env.selCount = 0),
      perform_submit payload env = submitFallbacks env := by
    intro hsel
    cases hsel with
    | inl h => simp [perform_submit, h]
    | inr h =>
      obtain ⟨⟨s, hs⟩, hzero⟩ := h
      simp [perform_submit, hs, hzero]
  refine ⟨?_, ?_, ?_⟩
  · intro s hs hpos
    cases hp : env.selPress with
    | ok u => cases u; simp [perform_submit, hs, hpos, hp]
    | error e => cases e; simp [perform_submit, hs, hpos, hp]
  · intro hsel
    rw [hfb hsel]
    refine ⟨?_, ?_, ?_, ?_⟩
    · intro hbtn
      cases hp : env.btnClick with
      | ok u => cases u; simp [submitFallbacks, hbtn, hp]
      | error e => cases e; simp [submitFallbacks, hbtn, hp]
    · intro hbtn hfoc
      cases hp : env.focusPress with
      | ok u => cases u; simp [submitFallbacks, hbtn, hfoc, hp]
      | error e => cases e; simp [submitFallbacks, hbtn, hfoc, hp]
    · intro hbtn hfoc hform
      cases hp : env.formPress with
      | ok u => cases u; simp [submitFallbacks, hbtn, hfoc, hform, hp]
      | error e => cases e; simp [submitFallbacks, hbtn, hfoc, hform, hp]
    · intro hbtn hfoc hform
      simp [submitFallbacks, hbtn, hfoc, hform]
  · intro h
    simp [perform_submit, h]

/-- Witness for C6 (amended): with no selector and only the first form
    resolving, the handler presses Enter on the first form and succeeds. -/
theorem C6_submit_gating_amended_witness :
    perform_submit (Value.vdict [])
      ⟨0, Except.ok (), 0, Except.ok (), 0, Except.ok (), 1, Except.ok ()⟩ =
      (Except.ok (), [SubmitCall.pressFirstForm 2000]) :=
  (((C6_submit_gating_amended (Value.vdict [])
      ⟨0, Except.ok (), 0, Except.ok (), 0, Except.ok (), 1, Except.ok ()⟩).2.1
        (Or.inl rfl)).2.2.1) rfl rfl (by decide)

/-- Input environment of the C7 counterexample: the selector fill raises a
    NON-timeout exception, while a focused element exists and its fill
    would succeed. -/
def inputCxEnv : InputEnv := ⟨Except.error FillErr.other, 1, Except.ok ()⟩

/-- Counterexample to claim C7 as stated: a non-timeout exception of the
    selector-based fill propagates immediately — the step is fatal without
    the focused-element fill ever being attempted, although it would have
    succeeded. "Fatal only if both fill strategies fail" does not hold. -/
theorem C7_input_counterexample :
    perform_input (Value.vdict [( "id", Value.vstr "f"), ( "value", Value.vstr "v")])
      inputCxEnv = (Except.error (), [InputCall.fillSelector 5000]) ∧
    inputCxEnv.focusCount = 1 ∧ inputCxEnv.focusFill = Except.ok () := ⟨rfl, rfl, rfl⟩

/-- Claim C7 (corrected): a missing `value` is a silent no-op (no error, no
    browser call). With a value and a selector, the selector fill runs with
    a 5000 ms timeout; a TIMEOUT falls through to the focused-element fill
    (2000 ms, attempted when a focused element exists) and the step is then
    fatal only if that fallback also fails (or no focused element exists);
    but a NON-timeout selector-fill exception is fatal immediately, without
    attempting the fallback. -/
theorem C7_input_fallback_amended (payload : Value) (env : InputEnv) :
    (isNone (dget payload "value") = true →
      perform_input payload env = (Except.ok (), [])) ∧
    (∀ s : String, isNone (dget payload "value") = false →
      build_selector payload = Except.ok (some s) →
      ((env.selFill = Except.ok () →
        perform_input payload env = (Except.ok (), [InputCall.fillSelector 5000])) ∧
       (env.selFill = Except.error FillErr.other →
        perform_input payload env = (Except.error (), [InputCall.fillSelector 5000])) ∧
       (env.selFill = Except.error FillErr.timeout → env.focusCount > 0 →
        env.focusFill = Except.ok () →
        perform_input payload env =
          (Except.ok (), [InputCall.fillSelector 5000, InputCall.fillFocused 2000])) ∧
       (∀ f : FillErr, env.selFill = Except.error FillErr.timeout → env.focusCount > 0 →
        env.focusFill = Except.error f →
        perform_input payload env =
          (Except.error (), [InputCall.fillSelector 5000, InputCall.fillFocused 2000])) ∧
       (env.selFill = Except.error FillErr.timeout → env.focusCount = 0 →
        perform_input payload env = (Except.error (), [InputCall.fillSelector 5000])))) := by
  constructor
  · intro h
    simp [perform_input, h]
  · intro s hv hs
    refine ⟨?_, ?_, ?_, ?_, ?_⟩
    · intro hf
      simp [perform_input, hv, hs, hf]
    · intro hf
      simp [perform_input, hv, hs, hf]
    · intro hf hfc hff
      simp [perform_input, hv, hs, hf, hfc, hff]
    · intro f hf hfc hff
      simp [perform_input, hv, hs, hf, hfc, hff]
    · intro hf hfc
      simp [perform_input, hv, hs, hf, hfc]

/-- Witness for C7 (amended): a concrete timeout followed by a successful
    focused-element fill, and a concrete silent no-op. -/
theorem C7_input_fallback_amended_witness :
    perform_input (Value.vdict [( "id", Value.vstr "f"), ( "value", Value.vstr "v")])
      ⟨Except.error FillErr.timeout, 1, Except.ok ()⟩ =
      (Except.ok (), [InputCall.fillSelector 5000, InputCall.fillFocused 2000]) ∧
    perform_input (Value.vdict []) ⟨Except.ok (), 0, Except.ok ()⟩ =
      (Except.ok (), []) :=
  ⟨((C7_input_fallback_amended
      (Value.vdict [( "id", Value.vstr "f"), ( "value", Value.vstr "v")])
      ⟨Except.error FillErr.timeout, 1, Except.ok ()⟩).2 "#f" rfl rfl).2.2.1
        rfl (by decide) rfl,
   (C7_input_fallback_amended (Value.vdict []) ⟨Except.ok (), 0, Except.ok ()⟩).1 rfl⟩

/-- Counterexample to claim C2 as stated: with current page URL
    `about:blank` and target `about:blank2`, the two URLs share scheme
    (`about`) and host (empty), their paths differ, and the target path has
    no static extension — the claim requires an SPA route change, but the
    code classifies REAL navigation (the blank-page guard returns early,
    before the origin rules). The navigation is necessary (the URLs
    differ). -/
theorem C2_spa_classification_counterexample :
    urlparse "about:blank" = Except.ok ⟨ "about", "", "blank", "", "", ""⟩ ∧
    urlparse "about:blank2" = Except.ok ⟨ "about", "", "blank2", "", "", ""⟩ ∧
    hasStaticExt (pyLower "blank2") = false ∧
    urls_differ "about:blank" "about:blank2" = true ∧
    is_spa_route_change "about:blank" "about:blank2" = false :=
  ⟨rfl, rfl, rfl, rfl, rfl⟩

/-- Claim C2 (corrected): provided the current page URL is nonempty and
    not the blank-page sentinel (a blank or empty current page always
    classifies as real navigation), the classification follows the claimed
    rules: origin (scheme or netloc) mismatch is real; same origin with
    identical path and query (differing at most in fragment) is SPA; same
    origin without a static-document extension on the lowercased target
    path is SPA; same origin with differing path or query and a
    static-document extension is real. -/
theorem C2_spa_classification_amended (c t : String) (pc pt : ParseResult)
    (hc0 : c ≠ "") (hc1 : c ≠ "about:blank")
    (hpc : urlparse c = Except.ok pc) (hpt : urlparse t = Except.ok pt) :
    ((pc.scheme ≠ pt.scheme ∨ pc.netloc ≠ pt.netloc) →
      is_spa_route_change c t = false) ∧
    (pc.scheme = pt.scheme → pc.netloc = pt.netloc → pc.path = pt.path →
      pc.query = pt.query → is_spa_route_change c t = true) ∧
    (pc.scheme = pt.scheme → pc.netloc = pt.netloc →
      hasStaticExt (pyLower pt.path) = false → is_spa_route_change c t = true) ∧
    (pc.scheme = pt.scheme → pc.netloc = pt.netloc →
      (pc.path ≠ pt.path ∨ pc.query ≠ pt.query) →
      hasStaticExt (pyLower pt.path) = true → is_spa_route_change c t = false) := by
  have hbase : is_spa_route_change c t =
      (if pc.scheme ≠ pt.scheme ∨ pc.netloc ≠ pt.netloc then false
       else if pc.scheme = pt.scheme ∧ pc.netloc = pt.netloc ∧
               pc.path = pt.path ∧ pc.query = pt.query then true
       else if hasStaticExt (pyLower pt.path) then false
       else true) := by
    unfold is_spa_route_change
    rw [if_neg (not_or.mpr ⟨hc0, hc1⟩), hpc, hpt]
  refine ⟨?_, ?_, ?_, ?_⟩
  · intro h
    rw [hbase, if_pos h]
  · intro h1 h2 h3 h4
    rw [hbase, if_neg (not_or.mpr ⟨fun hh => hh h1, fun hh => hh h2⟩),
        if_pos ⟨h1, h2, h3, h4⟩]
  · intro h1 h2 hext
    rw [hbase, if_neg (not_or.mpr ⟨fun hh => hh h1, fun hh => hh h2⟩)]
    by_cases hpq : pc.path = pt.path ∧ pc.query = pt.query
    · rw [if_pos ⟨h1, h2, hpq.1, hpq.2⟩]
    · rw [if_neg (by tauto), if_neg (by simp [hext])]
  · intro h1 h2 hdiff hext
    rw [hbase, if_neg (not_or.mpr ⟨fun hh => hh h1, fun hh => hh h2⟩),
        if_neg (by tauto), if_pos hext]

/-- Witness for C2 (amended): one concrete URL pair per classification
    rule. -/
theorem C2_spa_classification_amended_witness :
    is_spa_route_change "https://a.com/x" "https://b.com/x" = false ∧
    is_spa_route_change "https://a.com/x" "https://a.com/x#f" = true ∧
    is_spa_route_change "https://a.com/x" "https://a.com/y" = true ∧
    is_spa_route_change "https://a.com/x" "https://a.com/page.HTML" = false := by
  refine ⟨?_, ?_, ?_, ?_⟩
  · exact (C2_spa_classification_amended "https://a.com/x" "https://b.com/x"
      ⟨ "https", "a.com", "/x", "", "", ""⟩ ⟨ "https", "b.com", "/x", "", "", ""⟩
      (by decide) (by decide) rfl rfl).1 (Or.inr (by decide))
  · exact (C2_spa_classification_amended "https://a.com/x" "https://a.com/x#f"
      ⟨ "https", "a.com", "/x", "", "", ""⟩ ⟨ "https", "a.com", "/x", "", "", "f"⟩
      (by decide) (by decide) rfl rfl).2.1 rfl rfl rfl rfl
  · exact (C2_spa_classification_amended "https://a.com/x" "https://a.com/y"
      ⟨ "https", "a.com", "/x", "", "", ""⟩ ⟨ "https", "a.com", "/y", "", "", ""⟩
      (by decide) (by decide) rfl rfl).2.2.1 rfl rfl rfl
  · exact (C2_spa_classification_amended "https://a.com/x" "https://a.com/page.HTML"
      ⟨ "https", "a.com", "/x", "", "", ""⟩ ⟨ "https", "a.com", "/page.HTML", "", "", ""⟩
      (by decide) (by decide) rfl rfl).2.2.2 rfl rfl (Or.inl (by decide)) rfl

/-- Claim C4 (confirmed): coordinate extraction follows the claimed
    precedence. The first valid numeric point among `coordinates.client`,
    `coordinates.page`, `coordinates.offset` (in that order) is returned
    verbatim; else a valid `coordinates.relative` scaled by the resolved
    numeric viewport; else flat numeric top-level `x`/`y`; else the center
    of `elementRect`; else no coordinates. (The conjuncts scope each branch
    by the failure of the earlier ones; the `elementRect` exception corner
    is the subject of C8/C10.) -/
theorem C4_coordinate_precedence (payload : Value) :
    (∀ cx cy : ℚ,
      isDict (dget payload "coordinates") = true →
      is_valid_point (dget (dget payload "coordinates") "client") = true →
      asNum? (dget (dget (dget payload "coordinates") "client") "x") = some cx →
      asNum? (dget (dget (dget payload "coordinates") "client") "y") = some cy →
      extract_coordinates payload = Except.ok (some (cx, cy))) ∧
    (∀ px py : ℚ,
      isDict (dget payload "coordinates") = true →
      is_valid_point (dget (dget payload "coordinates") "client") = false →
      is_valid_point (dget (dget payload "coordinates") "page") = true →
      asNum? (dget (dget (dget payload "coordinates") "page") "x") = some px →
      asNum? (dget (dget (dget payload "coordinates") "page") "y") = some py →
      extract_coordinates payload = Except.ok (some (px, py))) ∧
    (∀ ox oy : ℚ,
      isDict (dget payload "coordinates") = true →
      is_valid_point (dget (dget payload "coordinates") "client") = false →
      is_valid_point (dget (dget payload "coordinates") "page") = false →
      is_valid_point (dget (dget payload "coordinates") "offset") = true →
      asNum? (dget (dget (dget payload "coordinates") "offset") "x") = some ox →
      asNum? (dget (dget (dget payload "coordinates") "offset") "y") = some oy →
      extract_coordinates payload = Except.ok (some (ox, oy))) ∧
    (∀ rx ry w h : ℚ,
      isDict (dget payload "coordinates") = true →
      firstCPO (dget payload "coordinates") = none →
      is_valid_point (dget (dget payload "coordinates") "relative") = true →
      isDict (viewportOf payload (dget payload "coordinates")) = true →
      asNum? (dget (viewportOf payload (dget payload "coordinates")) "width") = some w →
      asNum? (dget (viewportOf payload (dget payload "coordinates")) "height") = some h →
      asNum? (dget (dget (dget payload "coordinates") "relative") "x") = some rx →
      asNum? (dget (dget (dget payload "coordinates") "relative") "y") = some ry →
      extract_coordinates payload = Except.ok (some (rx * w, ry * h))) ∧
    (∀ xv yv : ℚ,
      (isDict (dget payload "coordinates") = false ∨
       (firstCPO (dget payload "coordinates") = none ∧
        relativeViewportPoint payload (dget payload "coordinates") = none)) →
      asNum? (dget payload "x") = some xv →
      asNum? (dget payload "y") = some yv →
      extract_coordinates payload = Except.ok (some (xv, yv))) ∧
    (∀ l tp w h : ℚ,
      (isDict (dget payload "coordinates") = false ∨
       (firstCPO (dget payload "coordinates") = none ∧
        relativeViewportPoint payload (dget payload "coordinates") = none)) →
      flatXYPoint payload = none →
      isDict (dget payload "elementRect") = true →
      asNum? (dget (dget payload "elementRect") "left") = some l →
      asNum? (dget (dget payload "elementRect") "top") = some tp →
      asNum? (dgetD (dget payload "elementRect") "width" (Value.vint 0)) = some w →
      asNum? (dgetD (dget payload "elementRect") "height" (Value.vint 0)) = some h →
      extract_coordinates payload = Except.ok (some (l + w / 2, tp + h / 2))) ∧
    ((isDict (dget payload "coordinates") = false ∨
      (firstCPO (dget payload "coordinates") = none ∧
       relativeViewportPoint payload (dget payload "coordinates") = none)) →
      flatXYPoint payload = none →
      (isDict (dget payload "elementRect") = false ∨
       asNum? (dget (dget payload "elementRect") "left") = none ∨
       asNum? (dget (dget payload "elementRect") "top") = none) →
      extract_coordinates payload = Except.ok none) := by
  refine ⟨?_, ?_, ?_, ?_, ?_, ?_, ?_⟩
  · intro cx cy hd hv hx hy
    simp [extract_coordinates, firstCPO, pointOf, hd, hv, hx, hy]
  · intro px py hd hc hv hx hy
    simp [extract_coordinates, firstCPO, pointOf, hd, hc, hv, hx, hy]
  · intro ox oy hd hc hp hv hx hy
    simp [extract_coordinates, firstCPO, pointOf, hd, hc, hp, hv, hx, hy]
  · intro rx ry w h hd hcpo hr hvd hw hh hrx hry
    simp [extract_coordinates, relativeViewportPoint, hd, hcpo, hr, hvd, hw, hh, hrx, hry]
  · intro xv yv hnone hx hy
    cases hnone with
    | inl hnd => simp [extract_coordinates, flatXYPoint, hnd, hx, hy]
    | inr hra => simp [extract_coordinates, flatXYPoint, hra.1, hra.2, hx, hy]
  · intro l tp w h hnone hflat hrd hl htp hw hh
    cases hnone with
    | inl hnd => simp [extract_coordinates, rectCenterPoint, hnd, hflat, hrd, hl, htp, hw, hh]
    | inr hra =>
      simp [extract_coordinates, rectCenterPoint, hra.1, hra.2, hflat, hrd, hl, htp, hw, hh]
  · intro hnone hflat hrect
    have hr : rectCenterPoint payload = Except.ok none := by
      cases hrect with
      | inl h0 => simp [rectCenterPoint, h0]
      | inr h0 =>
        cases h0 with
        | inl h1 =>
          unfold rectCenterPoint
          by_cases hd : isDict (dget payload "elementRect") = true
          · rw [if_pos hd, h1]
          · simp [hd]
        | inr h1 =>
          unfold rectCenterPoint
          by_cases hd : isDict (dget payload "elementRect") = true
          · rw [if_pos hd, h1]
            cases asNum? (dget (dget payload "elementRect") "left") <;> rfl
          · simp [hd]
    cases hnone with
    | inl hnd => simp [extract_coordinates, hnd, hflat, hr]
    | inr hra => simp [extract_coordinates, hra.1, hra.2, hflat, hr]

/-- The payload of the claimed precedence instance: both a valid
    `coordinates.client` point and flat top-level `x`/`y`. -/
def payloadC4 : Value :=
  Value.vdict
    [( "coordinates", Value.vdict
        [( "client", Value.vdict [( "x", Value.vint 1), ( "y", Value.vint 2)])]),
     ( "x", Value.vint 9), ( "y", Value.vint 9)]

/-- Witness for C4: the payload carrying both `coordinates.client` (1, 2)
    and flat `x`/`y` (9, 9) resolves to the client values. -/
theorem C4_coordinate_precedence_witness :
    extract_coordinates payloadC4 = Except.ok (some (1, 2)) :=
  (C4_coordinate_precedence payloadC4).1 1 2 rfl rfl rfl rfl

end Replay
